import Mathlib

/-!
Verification development for the shell command execution security gateway
(`shell_executor.py` together with `llm_security_analyzer.py`).

The Python sources are shallowly embedded:

* Python `float` risk scores and confidences become `ℚ`.
* Fallible Python code (functions that can raise) returns `Except String _`;
  an `Except.error` value models an uncaught Python exception propagating to
  the caller.
* External effects are passed in as explicit data: the outcome of the
  network round trip of the risk scoring call is a `NetResult` argument, the
  outcome of `subprocess.run` is produced by a `spawn` function argument,
  and the interactive `input()` call reads a `UserReply` argument.
* Wall clock timing (`execution_time` in the Python dataclass) is not
  modelled; no claim mentions it.
* A Python value that is sometimes a `str` and sometimes a `SecurityLevel`
  enum member (the `final_security_level` entry of the analysis dict) is
  modelled by the sum type `PyLevel`.  In Python an `Enum` member is never
  `==`-equal to a plain string; `pyEq` reproduces this.
-/

/-- `CommandStatus` enum of `shell_executor.py`. -/
inductive CommandStatus where
  | SUCCESS
  | ERROR
  | BLOCKED
  | TIMEOUT
deriving DecidableEq

/-- `SecurityLevel` enum of `shell_executor.py` (safe / moderate / restricted / blocked). -/
inductive SecurityLevel where
  | SAFE
  | MODERATE
  | RESTRICTED
  | BLOCKED
deriving DecidableEq

/-- `LLMSecurityLevel` enum of `llm_security_analyzer.py`. -/
inductive LLMSecurityLevel where
  | SAFE
  | CAUTION
  | DANGEROUS
  | CRITICAL
  | BLOCKED
deriving DecidableEq

/-- Value stored under the `final_security_level` key of the security
analysis dict: the hybrid analyzer stores a `str`, the traditional fallback
of `ShellExecutor._perform_security_analysis` stores a `SecurityLevel` enum
member. -/
inductive PyLevel where
  | str (s : String)
  | enum (l : SecurityLevel)
deriving DecidableEq

/-- Python `==` between the heterogeneous level value and a string literal.
A Python `Enum` member compares unequal to every `str`, so the `enum` case
is always `false`. -/
def pyEq (v : PyLevel) (s : String) : Bool :=
  match v with
  | .str t => t == s
  | .enum _ => false

/-! ### Python string helpers (substring test, strip, lower) -/

/-- Python substring containment on char lists: used for `needle in haystack`. -/
def listSub (needle : List Char) : List Char → Bool
  | [] => needle.isEmpty
  | h :: t => needle.isPrefixOf (h :: t) || listSub needle t

/-- Python `needle in haystack` for strings. -/
def py_in (needle haystack : String) : Bool :=
  listSub needle.data haystack.data

/-- Whitespace as stripped by Python `str.strip()` (ASCII cases). -/
def pyStripWS (c : Char) : Bool :=
  c = ' ' || c = '\t' || c = '\n' || c = '\r' || c = Char.ofNat 11 || c = Char.ofNat 12

/-- Python `str.strip()` on a char list. -/
def pyStrip (l : List Char) : List Char :=
  ((l.dropWhile pyStripWS).reverse.dropWhile pyStripWS).reverse

/-- Python `s.strip().lower()` (ASCII lowering), used on interactive input. -/
def pyStripLower (s : String) : String :=
  String.mk ((pyStrip s.data).map Char.toLower)

/-! ### The dangerous regex patterns

Both `ShellSecurity` and `TraditionalSecurity` carry the same seven
`dangerous_patterns`, searched with `re.search(..., re.IGNORECASE)`.
The regexes are matched here by hand written scanners over the lowercased
character list; `re.search` tries every start position, modelled by
`List.tails`.  Python `\s` and `\w` are used only on ASCII text here. -/

/-- Python regex `\s` (ASCII cases). -/
def pyRegexWS (c : Char) : Bool :=
  c = ' ' || c = '\t' || c = '\n' || c = '\r' || c = Char.ofNat 11 || c = Char.ofNat 12

/-- Python regex `\w` (ASCII cases). -/
def pyRegexWord (c : Char) : Bool :=
  c.isAlphanum || c = '_'

/-- Match `\s*` greedily. -/
def dropWS (l : List Char) : List Char :=
  l.dropWhile pyRegexWS

/-- Match `\s+`: at least one whitespace char, then greedily the rest. -/
def wsPlus : List Char → Option (List Char)
  | [] => none
  | c :: rest => if pyRegexWS c then some (dropWS rest) else none

/-- Match a literal at the current position. -/
def litAt (lit : List Char) (l : List Char) : Option (List Char) :=
  if lit.isPrefixOf l then some (l.drop lit.length) else none

/-- Match `.*lit` (dot does not match a newline). -/
def dotStarThen (lit : List Char) : List Char → Bool
  | [] => lit.isEmpty
  | c :: rest => lit.isPrefixOf (c :: rest) || (decide (c ≠ '\n') && dotStarThen lit rest)

def lbraceChar : Char := Char.ofNat 123
def rbraceChar : Char := Char.ofNat 125

/-- Pattern 1 at a position: pipe to rm. -/
def pat_pipe_rm (l : List Char) : Bool :=
  match litAt ['|'] l with
  | some r => ['r', 'm'].isPrefixOf (dropWS r)
  | none => false

/-- Pattern 2 at a position: redirect to a raw disk device. -/
def pat_redirect_disk (l : List Char) : Bool :=
  match litAt ['>'] l with
  | some r =>
    "/dev/sda".data.isPrefixOf (dropWS r) || "/dev/sdb".data.isPrefixOf (dropWS r)
  | none => false

/-- Pattern 3 at a position: fork bomb signature. -/
def pat_fork_bomb (l : List Char) : Bool :=
  ((((((litAt [':', '(', ')', lbraceChar] l).map dropWS).bind
      (litAt [':', '|'])).map dropWS).bind
      (litAt [':'])).map dropWS).bind
      (fun r => ((litAt ['&'] r).map dropWS).bind
        (fun r2 => ((litAt [rbraceChar, ';'] r2).map dropWS).bind (litAt [':'])))
  |>.isSome

/-- Pattern 4 at a position: `rm -rf` / `rm -fr`. -/
def pat_rm_rf (l : List Char) : Bool :=
  (((litAt ['r', 'm'] l).bind wsPlus).bind (litAt ['-'])).map
    (fun r => ['r', 'f'].isPrefixOf r || ['f', 'r'].isPrefixOf r)
  |>.getD false

/-- Pattern 5 at a position: `sudo rm`. -/
def pat_sudo_rm (l : List Char) : Bool :=
  ((litAt ['s', 'u', 'd', 'o'] l).bind wsPlus).map (fun r => ['r', 'm'].isPrefixOf r)
  |>.getD false

/-- Pattern 6 at a position: `mkfs* /dev`. -/
def pat_mkfs_dev (l : List Char) : Bool :=
  match litAt ['m', 'k', 'f', 's'] l with
  | some r =>
    let r2 := match r with
      | '.' :: t => t
      | _ => r
    (wsPlus (r2.dropWhile pyRegexWord)).map (fun r3 => "/dev".data.isPrefixOf r3)
    |>.getD false
  | none => false

/-- Pattern 7 at a position: `dd ... of=/dev`. -/
def pat_dd_dev (l : List Char) : Bool :=
  ((litAt ['d', 'd'] l).bind wsPlus).map (dotStarThen "of=/dev".data)
  |>.getD false

/-- `re.search` over the seven `dangerous_patterns`, with `re.IGNORECASE`
modelled by lowercasing the command before the search. -/
def dangerousPatternHit (command : String) : Bool :=
  let l := command.data.map Char.toLower
  l.tails.any pat_pipe_rm || l.tails.any pat_redirect_disk ||
  l.tails.any pat_fork_bomb || l.tails.any pat_rm_rf ||
  l.tails.any pat_sudo_rm || l.tails.any pat_mkfs_dev ||
  l.tails.any pat_dd_dev

/-! ### Risk scoring client (`LLMSecurityAnalyzer`) -/

/-- The JSON object extracted from a successful scoring response; every
field may be absent (`LLMSecurityAnalyzer.analyze_command` supplies the
defaults). -/
structure ParsedAnalysis where
  security_level : Option String
  risk_score : Option ℚ
  risk_factors : Option (List String)
  safe_alternatives : Option (List String)
  explanation : Option String
  confidence : Option ℚ
  recommended_timeout : Option Int
  requires_confirmation : Option Bool
  command_category : Option String
deriving DecidableEq

/-- Outcome of the network round trip made by `_analyze_with_llm`:
HTTP 200 with the result of the JSON extraction (`none` when the
`re.search`/`json.loads` extraction fails), a non-success HTTP status, or a
raised exception (network failure, timeout). -/
inductive NetResult where
  | success (parsed : Option ParsedAnalysis)
  | httpError
  | exception (message : String)
deriving DecidableEq

/-- `LLMSecurityAnalyzer._analyze_with_llm`.  The presence of a configured
credential is `api_key`; the network outcome is the `net` argument (it is
ignored when no credential is configured, faithfully to the early return
before any network code). -/
def LLMSecurityAnalyzer.analyze_with_llm (api_key : Option String) (net : NetResult) :
    ParsedAnalysis :=
  match api_key with
  | none =>
    { security_level := some "caution"
      risk_score := some 50
      risk_factors := some ["No LLM API available"]
      safe_alternatives := some []
      explanation := some "LLM analysis unavailable, using fallback security measures"
      confidence := some 0.5
      recommended_timeout := some 30
      requires_confirmation := some true
      command_category := some "unknown" }
  | some _ =>
    match net with
    | .success (some parsed) => parsed
    | .success none =>
      { security_level := some "caution"
        risk_score := some 50
        risk_factors := some ["API response parsing failed"]
        safe_alternatives := some []
        explanation := some "Failed to parse LLM response, using caution level"
        confidence := some 0.3
        recommended_timeout := some 30
        requires_confirmation := some true
        command_category := some "unknown" }
    | .httpError =>
      { security_level := some "caution"
        risk_score := some 50
        risk_factors := some ["API response parsing failed"]
        safe_alternatives := some []
        explanation := some "Failed to parse LLM response, using caution level"
        confidence := some 0.3
        recommended_timeout := some 30
        requires_confirmation := some true
        command_category := some "unknown" }
    | .exception message =>
      { security_level := some "caution"
        risk_score := some 50
        risk_factors := some ["LLM API error"]
        safe_alternatives := some []
        explanation := some ("LLM analysis failed: " ++ message)
        confidence := some 0.2
        recommended_timeout := some 30
        requires_confirmation := some true
        command_category := some "unknown" }

/-- `LLMSecurityAnalysis` dataclass. -/
structure LLMSecurityAnalysis where
  command : String
  security_level : LLMSecurityLevel
  risk_score : ℚ
  risk_factors : List String
  safe_alternatives : List String
  explanation : String
  confidence : ℚ
  recommended_timeout : Int
  requires_confirmation : Bool
  command_category : String
deriving DecidableEq

/-- The `level_map` dict of `LLMSecurityAnalyzer.analyze_command`, with the
`.get(..., CAUTION)` default. -/
def level_map (s : String) : LLMSecurityLevel :=
  if s = "safe" then .SAFE
  else if s = "caution" then .CAUTION
  else if s = "dangerous" then .DANGEROUS
  else if s = "critical" then .CRITICAL
  else if s = "blocked" then .BLOCKED
  else .CAUTION

/-- `LLMSecurityAnalyzer.analyze_command`: runs `_analyze_with_llm` and
builds the dataclass, applying the `result.get(...)` defaults. -/
def LLMSecurityAnalyzer.analyze_command (api_key : Option String) (net : NetResult)
    (command : String) : LLMSecurityAnalysis :=
  let result := LLMSecurityAnalyzer.analyze_with_llm api_key net
  { command := command
    security_level := level_map (result.security_level.getD "caution")
    risk_score := result.risk_score.getD 50
    risk_factors := result.risk_factors.getD []
    safe_alternatives := result.safe_alternatives.getD []
    explanation := result.explanation.getD ""
    confidence := result.confidence.getD 0.5
    recommended_timeout := result.recommended_timeout.getD 30
    requires_confirmation := result.requires_confirmation.getD true
    command_category := result.command_category.getD "unknown" }

/-! ### `TraditionalSecurity` (the pattern stage used by the hybrid analyzer) -/

/-- Keys of `TraditionalSecurity.dangerous_commands` (the dict values, flag
lists, are never read by `validate_command`). -/
def TraditionalSecurity.dangerous_command_keys : List String :=
  ["rm", "sudo", "su", "dd", "mkfs", "fdisk", "chmod", "chown"]

/-- `TraditionalSecurity.validate_command`: membership of a dangerous
command NAME is tested with `cmd in command`, a substring test on the whole
command string; then the dangerous regexes are searched. -/
def TraditionalSecurity.validate_command (command : String) : String :=
  if TraditionalSecurity.dangerous_command_keys.any (fun cmd => py_in cmd command) then
    "BLOCKED"
  else if dangerousPatternHit command then "BLOCKED"
  else "SAFE"

/-! ### `HybridSecurityAnalyzer` -/

/-- The entries of the dict returned by `comprehensive_analysis` that are
consumed downstream (`execute_command` reads exactly these four; the
pass-through payload entries `command`, `llm_analysis` and
`traditional_analysis` are omitted). -/
structure SecurityResult where
  final_security_level : PyLevel
  risk_score : ℚ
  decision_reason : String
  requires_confirmation : Bool
deriving DecidableEq

/-- The baseline dict
`{"SAFE": 10, "CAUTION": 30, "DANGEROUS": 70, "CRITICAL": 90}[traditional_level]`;
`none` models the `KeyError` raised on any other key. -/
def baselineTable (traditional_level : String) : Option ℚ :=
  if traditional_level = "SAFE" then some 10
  else if traditional_level = "CAUTION" then some 30
  else if traditional_level = "DANGEROUS" then some 70
  else if traditional_level = "CRITICAL" then some 90
  else none

/-- The threshold ladder of `comprehensive_analysis`. -/
def finalLevelFor (final_score : ℚ) : String :=
  if 80 ≤ final_score then "BLOCKED"
  else if 60 ≤ final_score then "RESTRICTED"
  else if 30 ≤ final_score then "CAUTION"
  else "SAFE"

/-- The combination step of `HybridSecurityAnalyzer.comprehensive_analysis`
(lines 283-313), as a function of the pattern verdict and the analysis.
`none` models the `KeyError` on an unknown non-BLOCKED verdict. -/
def HybridSecurityAnalyzer.combine (traditional_level : String)
    (llm_analysis : LLMSecurityAnalysis) : Option SecurityResult :=
  if traditional_level = "BLOCKED" then
    some { final_security_level := PyLevel.str "BLOCKED"
           risk_score := max llm_analysis.risk_score 90
           decision_reason := "Blocked by traditional security + LLM analysis"
           requires_confirmation :=
             llm_analysis.requires_confirmation ||
               decide (50 ≤ max llm_analysis.risk_score 90) }
  else
    match baselineTable traditional_level with
    | none => none
    | some baseline =>
      let final_score := max llm_analysis.risk_score baseline
      some { final_security_level := PyLevel.str (finalLevelFor final_score)
             risk_score := final_score
             decision_reason := "Combined analysis: " ++ llm_analysis.explanation
             requires_confirmation :=
               llm_analysis.requires_confirmation || decide (50 ≤ final_score) }

/-- `HybridSecurityAnalyzer.comprehensive_analysis`. -/
def HybridSecurityAnalyzer.comprehensive_analysis (api_key : Option String)
    (net : NetResult) (command : String) : Option SecurityResult :=
  HybridSecurityAnalyzer.combine
    (TraditionalSecurity.validate_command command)
    (LLMSecurityAnalyzer.analyze_command api_key net command)

/-! ### `shlex.split` (POSIX mode, whitespace split), as called by
`ShellSecurity.validate_command`.  An `Except.error` models the
`ValueError` raised by `shlex` (for example on an unbalanced quote). -/

/-- Token separators of `shlex` (its `whitespace` attribute). -/
def shlexWS (c : Char) : Bool :=
  c = ' ' || c = '\t' || c = '\r' || c = '\n'

def squoteChar : Char := Char.ofNat 39

/-- Lexer state: outside quotes, pending escape outside quotes, inside
single quotes, inside double quotes, pending escape inside double quotes. -/
inductive ShlexState where
  | out
  | outEsc
  | single
  | double
  | doubleEsc

/-- One-character-at-a-time core of `shlex.split` in POSIX mode.  `cur` is
the token being accumulated (`some ""` when a quote has opened an empty
token), `acc` the finished tokens. -/
def shlexCore : List Char → ShlexState → Option String → List String →
    Except String (List String)
  | [], st, cur, acc =>
    match st with
    | .out => .ok (acc ++ cur.toList)
    | .outEsc => .error "No escaped character"
    | .doubleEsc => .error "No escaped character"
    | .single => .error "No closing quotation"
    | .double => .error "No closing quotation"
  | c :: rest, .out, cur, acc =>
    if shlexWS c then
      match cur with
      | some t => shlexCore rest .out none (acc ++ [t])
      | none => shlexCore rest .out none acc
    else if c = squoteChar then shlexCore rest .single (some (cur.getD "")) acc
    else if c = '"' then shlexCore rest .double (some (cur.getD "")) acc
    else if c = '\\' then shlexCore rest .outEsc cur acc
    else shlexCore rest .out (some ((cur.getD "").push c)) acc
  | c :: rest, .outEsc, cur, acc =>
    shlexCore rest .out (some ((cur.getD "").push c)) acc
  | c :: rest, .single, cur, acc =>
    if c = squoteChar then shlexCore rest .out cur acc
    else shlexCore rest .single (some ((cur.getD "").push c)) acc
  | c :: rest, .double, cur, acc =>
    if c = '"' then shlexCore rest .out cur acc
    else if c = '\\' then shlexCore rest .doubleEsc cur acc
    else shlexCore rest .double (some ((cur.getD "").push c)) acc
  | c :: rest, .doubleEsc, cur, acc =>
    if c = '"' || c = '\\' then shlexCore rest .double (some ((cur.getD "").push c)) acc
    else shlexCore rest .double (some (((cur.getD "").push '\\').push c)) acc

/-- `shlex.split(command)`. -/
def shlexSplit (command : String) : Except String (List String) :=
  shlexCore command.data .out none []

/-! ### `ShellSecurity` (the rule engine of `shell_executor.py`) -/

/-- Keys of `ShellSecurity.dangerous_commands` (the dict values, flag
lists, are never read by `validate_command`). -/
def ShellSecurity.dangerous_command_keys : List String :=
  ["rm", "sudo", "su", "dd", "mkfs", "fdisk", "chmod", "chown",
   "wget", "curl", "nc", "netcat", "telnet"]

/-- `ShellSecurity.allowed_commands` (the Python set literal; the duplicate
`dirname` entry of the source collapses in a set). -/
def ShellSecurity.allowed_commands : List String :=
  ["ls", "cat", "grep", "find", "pwd", "echo", "date", "whoami",
   "ps", "top", "df", "du", "head", "tail", "wc", "sort", "uniq",
   "cut", "awk", "sed", "tr", "xargs", "which", "whereis", "file",
   "stat", "dirname", "basename", "realpath", "readlink",
   "env", "printenv", "uptime", "hostname", "uname", "lsb_release",
   "python3", "python", "node", "npm", "pip", "pip3", "git"]

/-- `ShellSecurity.validate_command`.  The first token decides dict and
whitelist membership; the regexes are searched over the raw command.  An
`Except.error` is the `ValueError` that `shlex.split` raises and that this
function does not catch. -/
def ShellSecurity.validate_command (command : String) : Except String SecurityLevel :=
  match shlexSplit command with
  | .error e => .error e
  | .ok [] => .ok SecurityLevel.BLOCKED
  | .ok (cmd :: _) =>
    if ShellSecurity.dangerous_command_keys.contains cmd then .ok SecurityLevel.BLOCKED
    else if dangerousPatternHit command then .ok SecurityLevel.BLOCKED
    else if ShellSecurity.allowed_commands.contains cmd then .ok SecurityLevel.SAFE
    else if ["systemctl", "service", "init", "rc"].any (fun sys => py_in sys cmd) then
      .ok SecurityLevel.RESTRICTED
    else .ok SecurityLevel.MODERATE

/-- Escape one character by a backslash throughout a char list
(Python `command.replace(char, chr(92) + char)` for a single character). -/
def escapeChar (c : Char) : List Char → List Char
  | [] => []
  | d :: rest =>
    if d = c then '\\' :: d :: escapeChar c rest
    else d :: escapeChar c rest

/-- `ShellSecurity.sanitize_command`: escapes the metacharacters in the
`dangerous_chars` list, except the pipe and the output redirect which the
loop condition always skips, then strips the result. -/
def ShellSecurity.sanitize_command (command : String) : String :=
  let dangerous_chars : List Char :=
    ['&', '|', ';', Char.ofNat 96, '$', '(', ')', '<', '>']
  let escaped := dangerous_chars.foldl
    (fun acc c =>
      if acc.contains c && !(c = '|' || c = '>') then escapeChar c acc else acc)
    command.data
  String.mk (pyStrip escaped)

/-! ### `ShellExecutor` -/

/-- `CommandResult` dataclass (the wall clock `execution_time` field is not
modelled). -/
structure CommandResult where
  command : String
  status : CommandStatus
  stdout : String
  stderr : String
  return_code : Int
  security_level : SecurityLevel
  blocked_reason : Option String
deriving DecidableEq

/-- Outcome of the `subprocess.run` call: normal completion with a return
code and captured streams, `subprocess.TimeoutExpired`, or any other raised
exception (spawn failure), carrying `str(e)`. -/
inductive SpawnResult where
  | completed (returncode : Int) (stdout stderr : String)
  | timedOut
  | failed (message : String)
deriving DecidableEq

/-- What the interactive `input()` call yields: a line of text, or
`KeyboardInterrupt` / `EOFError`. -/
inductive UserReply where
  | text (s : String)
  | interrupted
deriving DecidableEq

/-- Result of one `execute_command` call, instrumented with what the model
can observe about effects: `spawned` is the `(command, cwd)` pair passed to
`subprocess.run` when the call reached it, `asked_user` records whether
`input()` was called. -/
structure ExecOutcome where
  result : CommandResult
  spawned : Option (String × String)
  asked_user : Bool
deriving DecidableEq

/-- Configuration state of a `ShellExecutor` instance.  `llm_security`
is whether `self.llm_security` is a hybrid analyzer object (it is `None`
when `enable_llm_security` is false or the analyzer module failed to
import). -/
structure ShellExecutor where
  timeout : Int
  max_output_size : Nat
  working_dir : String
  llm_security : Bool
deriving DecidableEq

/-- Python `a or b` for an optional string argument (`None` and `""` are
falsy), as in `cwd or self.working_dir`. -/
def pyOrStr (a : Option String) (b : String) : String :=
  match a with
  | some s => if s = "" then b else s
  | none => b

/-- Python `a or b` for an optional int argument (`None` and `0` are
falsy), as in `timeout or self.timeout`. -/
def pyOrInt (a : Option Int) (b : Int) : Int :=
  match a with
  | some n => if n = 0 then b else n
  | none => b

/-- `ShellExecutor._perform_security_analysis`.  With an analyzer present
it returns the hybrid dict (whose impossible `KeyError` is the `.error`
case); otherwise it builds the fallback dict, whose `final_security_level`
entry holds the `SecurityLevel` ENUM member, compared against strings by
the Python `==` that `pyEq` models (always false). -/
def ShellExecutor.perform_security_analysis (ex : ShellExecutor)
    (api_key : Option String) (net : NetResult) (command : String) :
    Except String SecurityResult :=
  if ex.llm_security then
    match HybridSecurityAnalyzer.comprehensive_analysis api_key net command with
    | some r => .ok r
    | none => .error "KeyError"
  else
    match ShellSecurity.validate_command command with
    | .error e => .error e
    | .ok traditional_level =>
      .ok { final_security_level := PyLevel.enum traditional_level
            decision_reason := "Traditional pattern-based security"
            risk_score :=
              if pyEq (PyLevel.enum traditional_level) "BLOCKED" then 50 else 20
            requires_confirmation := !(pyEq (PyLevel.enum traditional_level) "SAFE") }

/-- The tail of `execute_command` from the sanitization on: sanitize,
resolve the working directory, run the subprocess, truncate output, build
the result.  `asked` is threaded through for the outcome record. -/
def ShellExecutor.spawnPhase (ex : ShellExecutor)
    (spawn : String → String → SpawnResult) (command : String)
    (cwd : Option String) (timeout : Option Int) (asked : Bool) : ExecOutcome :=
  let sanitized_command := ShellSecurity.sanitize_command command
  let execution_cwd := pyOrStr cwd ex.working_dir
  match spawn sanitized_command execution_cwd with
  | .completed returncode out err =>
    let stdout :=
      if ex.max_output_size < out.length then
        out.take ex.max_output_size ++ "\n[Output truncated]"
      else out
    let stderr :=
      if ex.max_output_size < err.length then
        err.take ex.max_output_size ++ "\n[Error truncated]"
      else err
    { result := { command := sanitized_command
                  status := if returncode = 0 then .SUCCESS else .ERROR
                  stdout := stdout
                  stderr := stderr
                  return_code := returncode
                  security_level := if returncode = 0 then .SAFE else .RESTRICTED
                  blocked_reason := none }
      spawned := some (sanitized_command, execution_cwd)
      asked_user := asked }
  | .timedOut =>
    { result := { command := sanitized_command
                  status := .TIMEOUT
                  stdout := ""
                  stderr := "Command timed out after " ++
                    toString (pyOrInt timeout ex.timeout) ++ " seconds"
                  return_code := 124
                  security_level := .BLOCKED
                  blocked_reason := none }
      spawned := some (sanitized_command, execution_cwd)
      asked_user := asked }
  | .failed message =>
    { result := { command := sanitized_command
                  status := .ERROR
                  stdout := ""
                  stderr := message
                  return_code := 1
                  security_level := .BLOCKED
                  blocked_reason := none }
      spawned := some (sanitized_command, execution_cwd)
      asked_user := asked }

/-- `ShellExecutor.execute_command` (the `capture_output=True` default is
assumed).  `.error` models an exception escaping to the caller. -/
def ShellExecutor.execute_command (ex : ShellExecutor) (api_key : Option String)
    (net : NetResult) (spawn : String → String → SpawnResult) (user : UserReply)
    (command : String) (cwd : Option String) (timeout : Option Int)
    (interactive_mode : Bool) : Except String ExecOutcome :=
  match ex.perform_security_analysis api_key net command with
  | .error e => .error e
  | .ok security_result =>
    if pyEq security_result.final_security_level "BLOCKED" then
      .ok { result := { command := command
                        status := .BLOCKED
                        stdout := ""
                        stderr := "Command blocked: " ++ security_result.decision_reason
                        return_code := 126
                        security_level := .BLOCKED
                        blocked_reason := some security_result.decision_reason }
            spawned := none
            asked_user := false }
    else if interactive_mode &&
        (pyEq security_result.final_security_level "MODERATE" ||
         pyEq security_result.final_security_level "RESTRICTED") then
      if security_result.requires_confirmation && decide (30 < security_result.risk_score) then
        match user with
        | .interrupted =>
          .ok { result := { command := command
                            status := .BLOCKED
                            stdout := ""
                            stderr := "Command cancelled by user interruption"
                            return_code := 130
                            security_level := .BLOCKED
                            blocked_reason := some "User interrupted" }
                spawned := none
                asked_user := true }
        | .text s =>
          if ["y", "yes", "是"].contains (pyStripLower s) then
            .ok (ex.spawnPhase spawn command cwd timeout true)
          else
            .ok { result := { command := command
                              status := .BLOCKED
                              stdout := ""
                              stderr := "Command cancelled by user"
                              return_code := 130
                              security_level := .BLOCKED
                              blocked_reason := some "User cancelled execution" }
                  spawned := none
                  asked_user := true }
      else .ok (ex.spawnPhase spawn command cwd timeout false)
    else .ok (ex.spawnPhase spawn command cwd timeout false)

/-- Observable summary of an execution outcome: what was spawned, whether
the user was consulted, the status and the return code. -/
def outcomeView (o : ExecOutcome) : Option (String × String) × Bool × CommandStatus × Int :=
  (o.spawned, o.asked_user, o.result.status, o.result.return_code)

/-! ### Helper lemmas -/

/-- A boolean prefix is in particular a substring. -/
lemma listSub_of_isPrefixOf (n l : List Char) (h : n.isPrefixOf l = true) :
    listSub n l = true := by
  cases l with
  | nil =>
    cases n with
    | nil => rfl
    | cons a t => simp at h
  | cons a t => simp [listSub, h]

/-- A command whose first whitespace-separated token is `k` contains `k`
as a substring. -/
lemma py_in_of_first_token (k c : String)
    (h : c = k ∨ ∃ rest, c = k ++ " " ++ rest) : py_in k c = true := by
  rcases h with rfl | ⟨rest, rfl⟩
  · exact listSub_of_isPrefixOf _ _ (by simp [List.isPrefixOf_iff_prefix])
  · apply listSub_of_isPrefixOf
    simp only [String.data_append, List.isPrefixOf_iff_prefix, List.append_assoc]
    exact List.prefix_append _ _

/-- A dangerous-name substring hit makes `TraditionalSecurity` block. -/
lemma traditional_blocked_of_py_in (command k : String)
    (hk : k ∈ TraditionalSecurity.dangerous_command_keys)
    (hin : py_in k command = true) :
    TraditionalSecurity.validate_command command = "BLOCKED" := by
  unfold TraditionalSecurity.validate_command
  rw [if_pos]
  exact List.any_eq_true.mpr ⟨k, hk, hin⟩

/-- `TraditionalSecurity.validate_command` takes only the two values
`"SAFE"` and `"BLOCKED"`. -/
lemma traditional_two_valued (command : String) :
    TraditionalSecurity.validate_command command = "SAFE" ∨
    TraditionalSecurity.validate_command command = "BLOCKED" := by
  unfold TraditionalSecurity.validate_command
  split_ifs <;> simp

/-- The security level the claim attributes to each `subprocess.run`
outcome. -/
def levelFromSpawn : SpawnResult → SecurityLevel
  | .completed rc _ _ => if rc = 0 then .SAFE else .RESTRICTED
  | .timedOut => .BLOCKED
  | .failed _ => .BLOCKED

/-- Spawn observation of an `execute_command` return value. -/
def spawnedOf : Except String ExecOutcome → Option (String × String)
  | .ok o => o.spawned
  | .error _ => none

/-- Security level field of an `execute_command` return value. -/
def securityLevelOf : Except String ExecOutcome → Option SecurityLevel
  | .ok o => some o.result.security_level
  | .error _ => none

lemma spawnPhase_spawned (ex : ShellExecutor) (spawn : String → String → SpawnResult)
    (command : String) (cwd : Option String) (timeout : Option Int) (asked : Bool) :
    (ex.spawnPhase spawn command cwd timeout asked).spawned =
      some (ShellSecurity.sanitize_command command, pyOrStr cwd ex.working_dir) := by
  simp only [ShellExecutor.spawnPhase]
  split <;> rfl

lemma spawnPhase_security (ex : ShellExecutor) (spawn : String → String → SpawnResult)
    (command : String) (cwd : Option String) (timeout : Option Int) (asked : Bool) :
    (ex.spawnPhase spawn command cwd timeout asked).result.security_level =
      levelFromSpawn
        (spawn (ShellSecurity.sanitize_command command) (pyOrStr cwd ex.working_dir)) := by
  simp only [ShellExecutor.spawnPhase, levelFromSpawn]
  split <;> simp_all [levelFromSpawn]

/-- Every successful `execute_command` return either never reached
`subprocess.run`, or is literally the result of the spawn tail. -/
lemma execute_command_cases (ex : ShellExecutor) (api_key : Option String)
    (net : NetResult) (spawn : String → String → SpawnResult) (user : UserReply)
    (command : String) (cwd : Option String) (timeout : Option Int)
    (interactive_mode : Bool) (o : ExecOutcome)
    (h : ex.execute_command api_key net spawn user command cwd timeout interactive_mode =
      .ok o) :
    o.spawned = none ∨
    o = ex.spawnPhase spawn command cwd timeout true ∨
    o = ex.spawnPhase spawn command cwd timeout false := by
  unfold ShellExecutor.execute_command at h
  cases hp : ex.perform_security_analysis api_key net command with
  | error e => rw [hp] at h; exact absurd h (by simp)
  | ok s =>
    rw [hp] at h
    dsimp only [] at h
    split_ifs at h with h1 h2 h3
    · obtain rfl := Except.ok.inj h
      exact Or.inl rfl
    · cases user with
      | interrupted =>
        obtain rfl := Except.ok.inj h
        exact Or.inl rfl
      | text t =>
        dsimp only [] at h
        split_ifs at h with h4
        · obtain rfl := Except.ok.inj h
          exact Or.inr (Or.inl rfl)
        · obtain rfl := Except.ok.inj h
          exact Or.inl rfl
    · obtain rfl := Except.ok.inj h
      exact Or.inr (Or.inr rfl)
    · obtain rfl := Except.ok.inj h
      exact Or.inr (Or.inr rfl)

/-! ### Spec-side definitions (transcribed from the specification text, for
the refinement statements; the code-side counterparts are above) -/

/-- Spec-side normalization of the rule-engine scale onto the canonical
four levels: the specification reads the code's `DANGEROUS` as
`RESTRICTED` and `CRITICAL` as `BLOCKED`. -/
def specNormalize (lvl : String) : String :=
  if lvl = "DANGEROUS" then "RESTRICTED"
  else if lvl = "CRITICAL" then "BLOCKED"
  else lvl

/-- Spec-side baseline map `{SAFE:10, CAUTION:30, RESTRICTED:70, BLOCKED:90}`
on the normalized scale. -/
def specBaseline (lvl : String) : ℚ :=
  if lvl = "SAFE" then 10
  else if lvl = "CAUTION" then 30
  else if lvl = "RESTRICTED" then 70
  else 90

/-- Spec-side threshold ladder: `BLOCKED` iff the score is at least 80,
`RESTRICTED` iff it is in `[60, 80)`, `CAUTION` iff in `[30, 60)`, else
`SAFE`. -/
def specFinalLevel (riskScore : ℚ) : String :=
  if 80 ≤ riskScore then "BLOCKED"
  else if 60 ≤ riskScore then "RESTRICTED"
  else if 30 ≤ riskScore then "CAUTION"
  else "SAFE"

/-! ### Claims -/

/-- C2 counterexample input: a parsed scoring response whose risk score is
150, outside `[0,100]`. -/
def c2parsed : ParsedAnalysis :=
  { security_level := none
    risk_score := some 150
    risk_factors := none
    safe_alternatives := none
    explanation := none
    confidence := none
    recommended_timeout := none
    requires_confirmation := none
    command_category := none }

/-- The decision the pipeline produces from `c2parsed` on `ls -la`. -/
def c2outres : SecurityResult :=
  { final_security_level := PyLevel.str "BLOCKED"
    risk_score := 150
    decision_reason := "Combined analysis: "
    requires_confirmation := true }

/-- C2 (counterexample): the claim says the combined `riskScore` always
lies in `[0,100]`, even for an analysis whose score is out of range; but
the combination step performs no clamping, so an analysis score of 150
propagates to a decision score of 150. -/
theorem c2_riskscore_unclamped_counterexample :
    HybridSecurityAnalyzer.comprehensive_analysis (some "key")
      (NetResult.success (some c2parsed)) "ls -la" = some c2outres ∧
    ¬(c2outres.risk_score ≤ 100) := by
  constructor
  · rfl
  · norm_num [c2outres]

/-- C2 (amended): for every pattern-stage verdict and every analysis, the
combined score is bounded below by 0 unconditionally (each baseline is at
least 10), and bounded above by 100 PROVIDED the analysis score is at most
100; there is no clamping of an out-of-range analysis score. -/
theorem c2_riskscore_bounds (traditional_level : String) (a : LLMSecurityAnalysis)
    (d : SecurityResult)
    (hc : HybridSecurityAnalyzer.combine traditional_level a = some d)
    (hle : a.risk_score ≤ 100) :
    0 ≤ d.risk_score ∧ d.risk_score ≤ 100 := by
  unfold HybridSecurityAnalyzer.combine at hc
  split_ifs at hc with hb
  · obtain rfl := Option.some.inj hc
    exact ⟨le_trans (by norm_num) (le_max_right _ _), max_le hle (by norm_num)⟩
  · revert hc
    unfold baselineTable
    split_ifs with h1 h2 h3 h4 <;> intro hc
    · obtain rfl := Option.some.inj hc
      exact ⟨le_trans (by norm_num) (le_max_right _ _), max_le hle (by norm_num)⟩
    · obtain rfl := Option.some.inj hc
      exact ⟨le_trans (by norm_num) (le_max_right _ _), max_le hle (by norm_num)⟩
    · obtain rfl := Option.some.inj hc
      exact ⟨le_trans (by norm_num) (le_max_right _ _), max_le hle (by norm_num)⟩
    · obtain rfl := Option.some.inj hc
      exact ⟨le_trans (by norm_num) (le_max_right _ _), max_le hle (by norm_num)⟩
    · exact absurd hc (by simp)

/-- The analysis the scoring client returns with no credential configured,
for `ls -la`. -/
def c2wa : LLMSecurityAnalysis :=
  LLMSecurityAnalyzer.analyze_command none NetResult.httpError "ls -la"

/-- The decision combined from a `SAFE` pattern verdict and `c2wa`. -/
def c2wd : SecurityResult :=
  { final_security_level := PyLevel.str "CAUTION"
    risk_score := 50
    decision_reason :=
      "Combined analysis: LLM analysis unavailable, using fallback security measures"
    requires_confirmation := true }

/-- Witness for C2 (amended) at a concrete in-range analysis. -/
theorem c2_riskscore_bounds_witness : 0 ≤ c2wd.risk_score ∧ c2wd.risk_score ≤ 100 :=
  c2_riskscore_bounds "SAFE" c2wa c2wd (by decide) (by decide)

/-- C3: for every command whose first token is one of the dangerous
command names of the pattern stage consulted by the hybrid combiner, the
pattern stage returns `BLOCKED`, and for every possible analysis the
combined decision is `BLOCKED` with `riskScore = max(analysis.riskScore, 90)`. -/
theorem c3_dangerous_first_token_blocks (command k : String) (a : LLMSecurityAnalysis)
    (hk : k ∈ TraditionalSecurity.dangerous_command_keys)
    (htok : command = k ∨ ∃ rest, command = k ++ " " ++ rest) :
    TraditionalSecurity.validate_command command = "BLOCKED" ∧
    HybridSecurityAnalyzer.combine (TraditionalSecurity.validate_command command) a =
      some { final_security_level := PyLevel.str "BLOCKED"
             risk_score := max a.risk_score 90
             decision_reason := "Blocked by traditional security + LLM analysis"
             requires_confirmation :=
               a.requires_confirmation || decide (50 ≤ max a.risk_score 90) } := by
  have hb := traditional_blocked_of_py_in command k hk (py_in_of_first_token k command htok)
  refine ⟨hb, ?_⟩
  rw [hb]
  rfl

/-- The no-credential analysis for `sudo reboot`. -/
def c3wa : LLMSecurityAnalysis :=
  LLMSecurityAnalyzer.analyze_command none NetResult.httpError "sudo reboot"

/-- Witness for C3 at `sudo reboot`. -/
theorem c3_dangerous_first_token_blocks_witness :
    TraditionalSecurity.validate_command "sudo reboot" = "BLOCKED" ∧
    HybridSecurityAnalyzer.combine (TraditionalSecurity.validate_command "sudo reboot") c3wa =
      some { final_security_level := PyLevel.str "BLOCKED"
             risk_score := max c3wa.risk_score 90
             decision_reason := "Blocked by traditional security + LLM analysis"
             requires_confirmation :=
               c3wa.requires_confirmation || decide (50 ≤ max c3wa.risk_score 90) } :=
  c3_dangerous_first_token_blocks "sudo reboot" "sudo" c3wa (by decide)
    (Or.inr ⟨"reboot", rfl⟩)

/-- C4: for every non-BLOCKED pattern-stage verdict and every analysis,
the combined score is `max(analysis.riskScore, baseline)` with the
baseline given by the spec map on the normalized level, the final level
follows the spec threshold ladder of the score, and
`requiresConfirmation = analysis.requiresConfirmation OR riskScore ≥ 50`. -/
theorem c4_combination_formula (lvl : String) (a : LLMSecurityAnalysis)
    (h : lvl ∈ ["SAFE", "CAUTION", "DANGEROUS", "CRITICAL"]) :
    HybridSecurityAnalyzer.combine lvl a =
      some { final_security_level :=
               PyLevel.str
                 (specFinalLevel (max a.risk_score (specBaseline (specNormalize lvl))))
             risk_score := max a.risk_score (specBaseline (specNormalize lvl))
             decision_reason := "Combined analysis: " ++ a.explanation
             requires_confirmation :=
               a.requires_confirmation ||
                 decide (50 ≤ max a.risk_score (specBaseline (specNormalize lvl))) } := by
  simp only [List.mem_cons, List.not_mem_nil, or_false] at h
  rcases h with rfl | rfl | rfl | rfl <;> rfl

/-- Witness for C4 at verdict `SAFE` and the no-credential analysis. -/
theorem c4_combination_formula_witness :
    HybridSecurityAnalyzer.combine "SAFE" c2wa =
      some { final_security_level :=
               PyLevel.str
                 (specFinalLevel (max c2wa.risk_score (specBaseline (specNormalize "SAFE"))))
             risk_score := max c2wa.risk_score (specBaseline (specNormalize "SAFE"))
             decision_reason := "Combined analysis: " ++ c2wa.explanation
             requires_confirmation :=
               c2wa.requires_confirmation ||
                 decide (50 ≤ max c2wa.risk_score (specBaseline (specNormalize "SAFE"))) } :=
  c4_combination_formula "SAFE" c2wa (by decide)

/-- C10: the pattern stage consulted by the hybrid combiner returns only
`"SAFE"` or `"BLOCKED"`; it returns `"BLOCKED"` whenever any dangerous
command name occurs as a substring anywhere in the command string; and
whenever it does not block, the baseline entering the combination is 10. -/
theorem c10_traditional_substring_blocking :
    (∀ command : String,
      TraditionalSecurity.validate_command command = "SAFE" ∨
      TraditionalSecurity.validate_command command = "BLOCKED") ∧
    (∀ command k : String, k ∈ TraditionalSecurity.dangerous_command_keys →
      py_in k command = true →
      TraditionalSecurity.validate_command command = "BLOCKED") ∧
    (∀ (command : String) (a : LLMSecurityAnalysis) (d : SecurityResult),
      TraditionalSecurity.validate_command command ≠ "BLOCKED" →
      HybridSecurityAnalyzer.combine (TraditionalSecurity.validate_command command) a =
        some d →
      d.risk_score = max a.risk_score 10) := by
  refine ⟨traditional_two_valued, traditional_blocked_of_py_in, ?_⟩
  intro command a d hne hc
  rcases traditional_two_valued command with hs | hb
  · rw [hs] at hc
    obtain rfl := Option.some.inj hc
    rfl
  · exact absurd hb hne

/-- Witness for C10: `rm` occurs inside the word `warm`, so a harmless
command is blocked on a mid-word substring hit. -/
theorem c10_traditional_substring_blocking_witness :
    TraditionalSecurity.validate_command "warm milk" = "BLOCKED" :=
  c10_traditional_substring_blocking.2.1 "warm milk" "rm" (by decide) (by decide)

/-- C1: the invariant says a `BLOCKED` decision never reaches subprocess
execution, in every configuration including the traditional fallback.  In
the fallback configuration the code stores the `SecurityLevel` ENUM in
`final_security_level` and `execute_command` compares it with the STRING
`"BLOCKED"`, which is false for every enum member, so the blocked verdict
for `sudo reboot` falls through: the command is spawned and the result
reports `SUCCESS` with return code 0 instead of `BLOCKED` with 126. -/
theorem c1_blocked_decision_bypassed_in_fallback :
    ShellSecurity.validate_command "sudo reboot" = Except.ok SecurityLevel.BLOCKED ∧
    Except.map outcomeView
      (ShellExecutor.execute_command ⟨30, 1048576, "/root", false⟩ none NetResult.httpError
        (fun _ _ => SpawnResult.completed 0 "" "") (UserReply.text "") "sudo reboot"
        none none false) =
      Except.ok (some ("sudo reboot", "/root"), false, CommandStatus.SUCCESS, 0) :=
  ⟨rfl, rfl⟩

/-- C5 (counterexample): an explicit working-directory override that lies
outside the configured root (`/etc` against root `/root/workspace`) is not
rejected: the command is spawned in `/etc` and succeeds. -/
theorem c5_cwd_override_not_validated_counterexample :
    Except.map outcomeView
      (ShellExecutor.execute_command ⟨30, 1048576, "/root/workspace", true⟩ none
        NetResult.httpError (fun _ _ => SpawnResult.completed 0 "" "") (UserReply.text "")
        "ls -la" (some "/etc") none false) =
      Except.ok (some ("ls -la", "/etc"), false, CommandStatus.SUCCESS, 0) := rfl

/-- C5 (amended): `execute_command` performs no containment check on the
working-directory override.  Whenever a call reaches the spawn step, the
directory passed to the subprocess is the override verbatim (`working_dir`
only when the override is absent or empty); the `validate_path` helper is
never invoked on this path. -/
theorem c5_cwd_override_passthrough (ex : ShellExecutor) (api_key : Option String)
    (net : NetResult) (spawn : String → String → SpawnResult) (user : UserReply)
    (command : String) (cwd : Option String) (timeout : Option Int)
    (interactive_mode : Bool) :
    spawnedOf
      (ex.execute_command api_key net spawn user command cwd timeout interactive_mode) =
      none ∨
    spawnedOf
      (ex.execute_command api_key net spawn user command cwd timeout interactive_mode) =
      some (ShellSecurity.sanitize_command command, pyOrStr cwd ex.working_dir) := by
  cases hE : ex.execute_command api_key net spawn user command cwd timeout interactive_mode with
  | error e => exact Or.inl rfl
  | ok o =>
    rcases execute_command_cases ex api_key net spawn user command cwd timeout
      interactive_mode o hE with hn | rfl | rfl
    · exact Or.inl hn
    · exact Or.inr (spawnPhase_spawned ex spawn command cwd timeout true)
    · exact Or.inr (spawnPhase_spawned ex spawn command cwd timeout false)

/-- Witness for C5 (amended) at a concrete overridden directory. -/
theorem c5_cwd_override_passthrough_witness :
    spawnedOf
      (ShellExecutor.execute_command ⟨30, 1048576, "/root/workspace", true⟩ none
        NetResult.httpError (fun _ _ => SpawnResult.completed 0 "" "") (UserReply.text "")
        "ls -lh" (some "/tmp") none false) = none ∨
    spawnedOf
      (ShellExecutor.execute_command ⟨30, 1048576, "/root/workspace", true⟩ none
        NetResult.httpError (fun _ _ => SpawnResult.completed 0 "" "") (UserReply.text "")
        "ls -lh" (some "/tmp") none false) =
      some (ShellSecurity.sanitize_command "ls -lh", pyOrStr (some "/tmp") "/root/workspace") :=
  c5_cwd_override_passthrough ⟨30, 1048576, "/root/workspace", true⟩ none
    NetResult.httpError (fun _ _ => SpawnResult.completed 0 "" "") (UserReply.text "")
    "ls -lh" (some "/tmp") none false

/-- C6 (counterexample): with the analyzer present and no credential, the
decision for `ls -la` is `CAUTION` with `requiresConfirmation = true` and
risk score 50 > 30; in interactive mode with the user answering `n`, the
claim demands a BLOCKED result with code 130 and no spawn — but the gate
tests membership in `{MODERATE, RESTRICTED}`, which `CAUTION` fails, so
the command is spawned without any prompt (`asked_user = false`) and
succeeds. -/
theorem c6_caution_gate_skipped_counterexample :
    ShellExecutor.perform_security_analysis ⟨30, 1048576, "/w", true⟩ none
      NetResult.httpError "ls -la" =
      Except.ok
        { final_security_level := PyLevel.str "CAUTION"
          risk_score := 50
          decision_reason :=
            "Combined analysis: LLM analysis unavailable, using fallback security measures"
          requires_confirmation := true } ∧
    Except.map outcomeView
      (ShellExecutor.execute_command ⟨30, 1048576, "/w", true⟩ none NetResult.httpError
        (fun _ _ => SpawnResult.completed 0 "" "") (UserReply.text "n") "ls -la"
        none none true) =
      Except.ok (some ("ls -la", "/w"), false, CommandStatus.SUCCESS, 0) :=
  ⟨rfl, rfl⟩

/-- C6 (amended): the interactive confirmation gate fires only for a final
level of `RESTRICTED` (the combiner never emits `MODERATE`): there, with
`requiresConfirmation` and a risk score above 30, a rejected or
interrupted prompt returns a BLOCKED result with return code 130 and the
process is never spawned. -/
theorem c6_restricted_confirmation_gate (ex : ShellExecutor) (api_key : Option String)
    (net : NetResult) (spawn : String → String → SpawnResult) (user : UserReply)
    (command : String) (cwd : Option String) (timeout : Option Int) (s : SecurityResult)
    (hs : ex.perform_security_analysis api_key net command = .ok s)
    (h1 : s.final_security_level = PyLevel.str "RESTRICTED")
    (h2 : s.requires_confirmation = true)
    (h3 : 30 < s.risk_score)
    (huser : user = UserReply.interrupted ∨
      ∃ t, user = UserReply.text t ∧ ["y", "yes", "是"].contains (pyStripLower t) = false) :
    Except.map outcomeView
      (ex.execute_command api_key net spawn user command cwd timeout true) =
      Except.ok (none, true, CommandStatus.BLOCKED, 130) := by
  unfold ShellExecutor.execute_command
  rw [hs]
  dsimp only []
  rw [if_neg (by simp [h1, pyEq])]
  rw [if_pos (by simp [h1, pyEq])]
  rw [if_pos (by simp [h2, h3])]
  rcases huser with rfl | ⟨t, rfl, ht⟩
  · rfl
  · dsimp only []
    rw [if_neg (by rw [ht]; simp)]
    rfl

/-- A parsed scoring response with risk score 65, driving the combined
decision to `RESTRICTED`. -/
def c6parsed : ParsedAnalysis :=
  { security_level := some "caution"
    risk_score := some 65
    risk_factors := none
    safe_alternatives := none
    explanation := none
    confidence := none
    recommended_timeout := none
    requires_confirmation := some true
    command_category := none }

/-- The decision the pipeline produces from `c6parsed` on `ls -la`. -/
def c6sec : SecurityResult :=
  { final_security_level := PyLevel.str "RESTRICTED"
    risk_score := 65
    decision_reason := "Combined analysis: "
    requires_confirmation := true }

/-- Witness for C6 (amended): a `RESTRICTED` decision, interactive mode,
user answers `n`; result is BLOCKED with return code 130 and no spawn. -/
theorem c6_restricted_confirmation_gate_witness :
    Except.map outcomeView
      (ShellExecutor.execute_command ⟨30, 1048576, "/w", true⟩ (some "k")
        (NetResult.success (some c6parsed)) (fun _ _ => SpawnResult.completed 0 "" "")
        (UserReply.text "n") "ls -la" none none true) =
      Except.ok (none, true, CommandStatus.BLOCKED, 130) :=
  c6_restricted_confirmation_gate ⟨30, 1048576, "/w", true⟩ (some "k")
    (NetResult.success (some c6parsed)) (fun _ _ => SpawnResult.completed 0 "" "")
    (UserReply.text "n") "ls -la" none none c6sec rfl rfl rfl (by decide)
    (Or.inr ⟨"n", rfl, by decide⟩)

/-- C7 (counterexample): the claim says an unparseable command makes the
pattern classifier yield `BLOCKED` and the gateway return it as a value;
but `shlex.split` raises `ValueError` on the unbalanced quote, the
classifier propagates it, and so does `execute_command` in the traditional
configuration: the gateway raises instead of returning a result. -/
theorem c7_unparseable_raises_counterexample :
    ShellSecurity.validate_command "\"abc" = Except.error "No closing quotation" ∧
    ShellExecutor.execute_command ⟨30, 1048576, "/root", false⟩ none NetResult.httpError
      (fun _ _ => SpawnResult.completed 0 "" "") (UserReply.text "") "\"abc"
      none none false =
      Except.error "No closing quotation" :=
  ⟨rfl, rfl⟩

/-- C7 (amended): an EMPTY command does make the rule engine return
`BLOCKED`; an unparseable command instead makes `shlex.split` raise, and
`execute_command` propagates that exception to the caller whenever the
traditional fallback analysis is in use. -/
theorem c7_empty_blocked_unparseable_raises :
    ShellSecurity.validate_command "" = Except.ok SecurityLevel.BLOCKED ∧
    (∀ (ex : ShellExecutor) (api_key : Option String) (net : NetResult)
       (spawn : String → String → SpawnResult) (user : UserReply) (command : String)
       (cwd : Option String) (timeout : Option Int) (interactive_mode : Bool) (e : String),
       ex.llm_security = false →
       ShellSecurity.validate_command command = Except.error e →
       ex.execute_command api_key net spawn user command cwd timeout interactive_mode =
         Except.error e) := by
  refine ⟨rfl, ?_⟩
  intro ex api_key net spawn user command cwd timeout interactive_mode e hllm hval
  unfold ShellExecutor.execute_command ShellExecutor.perform_security_analysis
  rw [hllm, hval]
  rfl

/-- Witness for C7 (amended) at a concrete unbalanced quote. -/
theorem c7_empty_blocked_unparseable_raises_witness :
    ShellExecutor.execute_command ⟨30, 1048576, "/w", false⟩ none NetResult.httpError
      (fun _ _ => SpawnResult.completed 0 "" "") (UserReply.text "") "\"oops"
      none none false =
      Except.error "No closing quotation" :=
  c7_empty_blocked_unparseable_raises.2 ⟨30, 1048576, "/w", false⟩ none
    NetResult.httpError (fun _ _ => SpawnResult.completed 0 "" "") (UserReply.text "")
    "\"oops" none none false "No closing quotation" rfl rfl

/-- C8 (counterexample): the claim requires the risk-factor text stated in
the specification; the code uses a different text for the no-credential
fallback (`No LLM API available`, not `no scoring service available`). -/
theorem c8_risk_factor_text_counterexample :
    (LLMSecurityAnalyzer.analyze_with_llm none NetResult.httpError).risk_factors =
      some ["No LLM API available"] ∧
    ("No LLM API available" : String) ≠ "no scoring service available" :=
  ⟨rfl, by decide⟩

/-- C8 (amended): the scoring analysis degrades deterministically per
failure mode — no credential: confidence 0.5, independent of the network;
non-success HTTP status or JSON-extraction failure: confidence 0.3;
raised network error or timeout: confidence 0.2 — always with level
`caution`, risk score 50, `requires_confirmation` true and category
`unknown`, and with the risk-factor texts the code actually uses
(`No LLM API available`, `API response parsing failed`, `LLM API error`). -/
theorem c8_degraded_fallback_analyses :
    (∀ net : NetResult,
      LLMSecurityAnalyzer.analyze_with_llm none net =
        { security_level := some "caution"
          risk_score := some 50
          risk_factors := some ["No LLM API available"]
          safe_alternatives := some []
          explanation := some "LLM analysis unavailable, using fallback security measures"
          confidence := some 0.5
          recommended_timeout := some 30
          requires_confirmation := some true
          command_category := some "unknown" }) ∧
    (∀ api_key : String,
      LLMSecurityAnalyzer.analyze_with_llm (some api_key) NetResult.httpError =
        { security_level := some "caution"
          risk_score := some 50
          risk_factors := some ["API response parsing failed"]
          safe_alternatives := some []
          explanation := some "Failed to parse LLM response, using caution level"
          confidence := some 0.3
          recommended_timeout := some 30
          requires_confirmation := some true
          command_category := some "unknown" }) ∧
    (∀ api_key : String,
      LLMSecurityAnalyzer.analyze_with_llm (some api_key) (NetResult.success none) =
        { security_level := some "caution"
          risk_score := some 50
          risk_factors := some ["API response parsing failed"]
          safe_alternatives := some []
          explanation := some "Failed to parse LLM response, using caution level"
          confidence := some 0.3
          recommended_timeout := some 30
          requires_confirmation := some true
          command_category := some "unknown" }) ∧
    (∀ api_key message : String,
      LLMSecurityAnalyzer.analyze_with_llm (some api_key) (NetResult.exception message) =
        { security_level := some "caution"
          risk_score := some 50
          risk_factors := some ["LLM API error"]
          safe_alternatives := some []
          explanation := some ("LLM analysis failed: " ++ message)
          confidence := some 0.2
          recommended_timeout := some 30
          requires_confirmation := some true
          command_category := some "unknown" }) :=
  ⟨fun _ => rfl, fun _ => rfl, fun _ => rfl, fun _ _ => rfl⟩

/-- Witness for C8 (amended): the no-credential fallback evaluated on a
concrete network outcome. -/
theorem c8_degraded_fallback_analyses_witness :
    LLMSecurityAnalyzer.analyze_with_llm none (NetResult.exception "timeout") =
      { security_level := some "caution"
        risk_score := some 50
        risk_factors := some ["No LLM API available"]
        safe_alternatives := some []
        explanation := some "LLM analysis unavailable, using fallback security measures"
        confidence := some 0.5
        recommended_timeout := some 30
        requires_confirmation := some true
        command_category := some "unknown" } :=
  c8_degraded_fallback_analyses.1 (NetResult.exception "timeout")

/-- C9: for every execution that reaches the spawn step, the
`security_level` of the returned result is a function of the spawn outcome
alone — `SAFE` on return code 0, `RESTRICTED` on a nonzero return code,
`BLOCKED` on timeout and on spawn failure — whatever the security decision
was. -/
theorem c9_security_level_from_spawn_outcome (ex : ShellExecutor)
    (api_key : Option String) (net : NetResult) (spawn : String → String → SpawnResult)
    (user : UserReply) (command : String) (cwd : Option String) (timeout : Option Int)
    (interactive_mode : Bool) :
    spawnedOf
      (ex.execute_command api_key net spawn user command cwd timeout interactive_mode) =
      none ∨
    (spawnedOf
      (ex.execute_command api_key net spawn user command cwd timeout interactive_mode) =
      some (ShellSecurity.sanitize_command command, pyOrStr cwd ex.working_dir) ∧
     securityLevelOf
      (ex.execute_command api_key net spawn user command cwd timeout interactive_mode) =
      some (levelFromSpawn
        (spawn (ShellSecurity.sanitize_command command) (pyOrStr cwd ex.working_dir)))) := by
  cases hE : ex.execute_command api_key net spawn user command cwd timeout interactive_mode with
  | error e => exact Or.inl rfl
  | ok o =>
    rcases execute_command_cases ex api_key net spawn user command cwd timeout
      interactive_mode o hE with hn | rfl | rfl
    · exact Or.inl hn
    · exact Or.inr ⟨spawnPhase_spawned ex spawn command cwd timeout true,
        congrArg some (spawnPhase_security ex spawn command cwd timeout true)⟩
    · exact Or.inr ⟨spawnPhase_spawned ex spawn command cwd timeout false,
        congrArg some (spawnPhase_security ex spawn command cwd timeout false)⟩

/-- A spawn outcome with a nonzero return code, for the C9 witness. -/
def c9spawn : String → String → SpawnResult :=
  fun _ _ => SpawnResult.completed 7 "" ""

/-- Witness for C9 at a concrete failing process. -/
theorem c9_security_level_from_spawn_outcome_witness :
    spawnedOf
      (ShellExecutor.execute_command ⟨30, 1048576, "/w", true⟩ none NetResult.httpError
        c9spawn (UserReply.text "") "pwd" none none false) = none ∨
    (spawnedOf
      (ShellExecutor.execute_command ⟨30, 1048576, "/w", true⟩ none NetResult.httpError
        c9spawn (UserReply.text "") "pwd" none none false) =
      some (ShellSecurity.sanitize_command "pwd", pyOrStr none "/w") ∧
     securityLevelOf
      (ShellExecutor.execute_command ⟨30, 1048576, "/w", true⟩ none NetResult.httpError
        c9spawn (UserReply.text "") "pwd" none none false) =
      some (levelFromSpawn
        (c9spawn (ShellSecurity.sanitize_command "pwd") (pyOrStr none "/w")))) :=
  c9_security_level_from_spawn_outcome ⟨30, 1048576, "/w", true⟩ none NetResult.httpError
    c9spawn (UserReply.text "") "pwd" none none false
